import Mathlib

set_option linter.unusedVariables false

/-! Verification development for the GMM module (`gmm.py`) of the
MultimodalDiarization repository.

The module wraps scikit-learn mixture fitting.  We embed the Python code
shallowly:

* numpy arrays become `NDArray` (a shape together with the row-major data,
  rational entries in place of floats);
* the relevant numpy operations (`np.append`, `np.resize`, `argmax(axis=0)`,
  `numpy.random.random`) are modelled faithfully, including the `ValueError`
  that `np.append(..., axis=0)` raises on incompatible shapes and the cyclic
  fill of `np.resize`;
* numpy's global random state becomes an explicit stream `g : ℕ → ℚ` with a
  cursor that every draw advances;
* the fitted scikit-learn estimator (`self.clf`) becomes an `SKModel` whose
  observable behaviour (`means_`, `covariances_`, `weights_`, `bic`,
  `score_samples`, `predict_proba`) is abstract, and the library itself
  becomes an `SKLib` (construct-and-fit, or warm-start refit) that the
  embedded functions take as a parameter — the numerics live outside the
  repository, so every theorem below is stated for an arbitrary library;
* Python exceptions become `Except PyError`; the `print` statements of
  `GMM.train` / `GMM.eval` become an explicit warning list.
-/

/-- A numpy `ndarray`: shape together with the row-major flattened data. -/
structure NDArray where
  shape : List ℕ
  data : List ℚ
deriving DecidableEq, Repr

/-- Python exceptions raised by the embedded code or by numpy. -/
inductive PyError where
  | RuntimeError (msg : String) : PyError
  | ValueError (msg : String) : PyError
deriving DecidableEq, Repr

/-- The diagnostics printed by `GMM.train` / `GMM.eval` on a feature-count
mismatch (`"Error: Data has %d features, model expects %d features."`). -/
inductive PyWarning where
  | dimMismatch (got expected : ℕ) : PyWarning
deriving DecidableEq, Repr

/-- Model of `np.append(a, b)` with no axis: both arrays are flattened and
concatenated into a 1-D array. -/
def np_append (a b : NDArray) : NDArray :=
  ⟨[a.data.length + b.data.length], a.data ++ b.data⟩

/-- Model of `np.append(a, b, axis=0)` (i.e. `np.concatenate` along axis 0): requires
equal numbers of dimensions and equal trailing dimensions, else numpy raises
`ValueError`; on success the leading dimensions add and the row-major data
concatenates. -/
def np_append_axis0 (a b : NDArray) : Except PyError NDArray :=
  if a.shape ≠ [] ∧ a.shape.length = b.shape.length ∧ a.shape.tail = b.shape.tail then
    .ok ⟨(a.shape.headD 0 + b.shape.headD 0) :: a.shape.tail, a.data ++ b.data⟩
  else
    .error (.ValueError "all the input array dimensions must match exactly")

/-- Model of `np.resize(a, n)` with an integer size: the result is 1-D of length `n`,
filled with the flattened data repeated cyclically (zeros if `a` is empty). -/
def np_resize (a : NDArray) (n : ℕ) : NDArray :=
  if a.data.length = 0 then ⟨[n], List.replicate n 0⟩
  else ⟨[n], (List.range n).map (fun i => a.data.getD (i % a.data.length) 0)⟩

/-- Scalar times array (`ratio1*gmm1.components.weights`). -/
def NDArray.smul (r : ℚ) (a : NDArray) : NDArray :=
  ⟨a.shape, a.data.map (fun x => r * x)⟩

/-- Index of the first maximal element of a list (np.argmax over a 1-D slice;
numpy returns the first occurrence of the maximum). -/
def argmaxIdx (xs : List ℚ) : ℕ :=
  match xs with
  | [] => 0
  | x :: _ =>
      (((List.range xs.length).zip xs).foldl
        (fun b p => if p.2 > b.2 then p else b) (0, x)).1

/-- Model of `a.argmax(axis=0)`: reduce the leading axis.  For a 2-D `(N, M)` array
this yields, for each of the `M` columns, the row index at which that column
is maximal — a length-`M` result. -/
def NDArray.argmax_axis0 (a : NDArray) : NDArray :=
  match a.shape with
  | [] => a
  | n0 :: rest =>
      let inner := rest.prod
      ⟨rest, (List.range inner).map (fun j =>
        ((argmaxIdx ((List.range n0).map (fun i => a.data.getD (i * inner + j) 0)) : ℕ) : ℚ))⟩

/-- A draw from numpy's global uniform generator: `random(shape)` consumes
`shape.prod` values of the ambient stream `g` starting at cursor `k` and
advances the cursor. -/
def npRandom (g : ℕ → ℚ) (k : ℕ) (shape : List ℕ) : NDArray × ℕ :=
  (⟨shape, (List.range shape.prod).map (fun i => g (k + i))⟩, k + shape.prod)

/-- Model of `GMMComponents` — the parameter block of a GMM (weights, means,
covariances), plus the `comp_probs` buffer.  `comp_probs` is allocated with
`np.empty(M)` whose contents are unspecified; we model it as zeros (no code
path of the module ever reads it). -/
structure GMMComponents where
  M : ℕ
  D : ℕ
  weights : NDArray
  means : NDArray
  covars : NDArray
  comp_probs : NDArray
deriving Repr

/-- Model of `GMMComponents.__init__(M, D, weights, means, covars)`: each array that is
passed as `None` is drawn from the global random stream, in source order
weights (`random(M)`), means (`random((M,D))`), covars (`random((M,D))`). -/
def GMMComponents.mkInit (g : ℕ → ℚ) (k : ℕ) (M D : ℕ)
    (weights means covars : Option NDArray) : GMMComponents × ℕ :=
  let (w, k1) := match weights with
    | some w => (w, k)
    | none => npRandom g k [M]
  let (m, k2) := match means with
    | some m => (m, k1)
    | none => npRandom g k1 [M, D]
  let (c, k3) := match covars with
    | some c => (c, k2)
    | none => npRandom g k2 [M, D]
  (⟨M, D, w, m, c, ⟨[M], List.replicate M 0⟩⟩, k3)

/-- Model of `GMMComponents.init_random_covars`: `self.covars = random((M, D, D))`. -/
def GMMComponents.init_random_covars (g : ℕ → ℚ) (k : ℕ) (c : GMMComponents) :
    GMMComponents × ℕ :=
  let (cv, k1) := npRandom g k [c.M, c.D, c.D]
  ({ c with covars := cv }, k1)

/-- Model of `GMMComponents.shrink_components(new_M)`: `np.resize` of the weights to
`new_M`, of the means to the flat length `new_M*D`, and of the covariances to
the flat length `new_M*D*D`.  The `M` field is left untouched by the source. -/
def GMMComponents.shrink_components (c : GMMComponents) (new_M : ℕ) : GMMComponents :=
  { c with
    weights := np_resize c.weights new_M
    means := np_resize c.means (new_M * c.D)
    covars := np_resize c.covars (new_M * c.D * c.D) }

/-- Model of `GMMEvalData` — evaluation buffers attached to a `GMM`. -/
structure GMMEvalData where
  N : ℕ
  M : ℕ
  memberships : NDArray
  loglikelihoods : NDArray
  likelihood : ℚ
deriving Repr

/-- Model of `GMMEvalData.__init__(N, M)` — zero matrices of shapes `(M, N)` and `N`. -/
def GMMEvalData.mkInit (N M : ℕ) : GMMEvalData :=
  ⟨N, M, ⟨[M, N], List.replicate (M * N) 0⟩, ⟨[N], List.replicate N 0⟩, 0⟩

/-- A fitted scikit-learn estimator (`self.clf` after `fit`): observable
attributes and the query methods the wrapper calls.  The numerical behaviour
is abstract — it lives in scikit-learn, outside this repository. -/
structure SKModel where
  means_ : NDArray
  covariances_ : NDArray
  weights_ : NDArray
  bic : NDArray → ℚ
  score_samples : NDArray → NDArray
  predict_proba : NDArray → NDArray

/-- The configuration `GMM.train_using_python` passes to the
`GaussianMixture` constructor. -/
structure GMConfig where
  n_components : ℕ
  covariance_type : String
  max_iter : ℕ
  weights_init : Option NDArray
  means_init : Option NDArray
  random_state : ℕ

/-- The scikit-learn library, as the wrapper uses it: construct a
`GaussianMixture` from a configuration and fit it to data (`fitNew`), or
refit an existing warm-started estimator (`refit`, i.e. `self.clf.fit` when
`self.clf` is not `None`). -/
structure SKLib where
  fitNew : GMConfig → NDArray → SKModel
  refit : SKModel → NDArray → SKModel

/-- Model of `GMM.cvtype_name_list` — the covariance-matrix types the wrapper accepts. -/
def cvtype_name_list : List String := ["diag", "full"]

/-- The `GMM` object: model sizes, covariance mode, parameter block,
evaluation buffers and the (initially absent) fitted estimator. -/
structure GMM where
  M : ℕ
  D : ℕ
  cvtype : String
  components : GMMComponents
  eval_data : GMMEvalData
  clf : Option SKModel
  components_seeded : Bool

/-- Model of `GMM.__init__(M, D, means, covars, weights, cvtype)`: raises
`RuntimeError` when `cvtype` is not in `cvtype_name_list`; otherwise stores
the mode, builds the component block (drawing any missing arrays from the
global random stream), allocates `GMMEvalData(1, M)`, leaves `clf = None`,
and records whether any component array was supplied. -/
def GMM.init (g : ℕ → ℚ) (k : ℕ) (M D : ℕ)
    (means covars weights : Option NDArray) (cvtype : String) :
    Except PyError (GMM × ℕ) :=
  if cvtype ∈ cvtype_name_list then
    let (comps, k1) := GMMComponents.mkInit g k M D weights means covars
    .ok (⟨M, D, cvtype, comps, GMMEvalData.mkInit 1 M, none,
          means.isSome || covars.isSome || weights.isSome⟩, k1)
  else
    .error (.RuntimeError "Specified cvtype is not allowed, try one of [diag, full]")

/-- Model of `GMM.train_using_python(input_data, iters)`: when `self.clf` is `None`, a
`GaussianMixture` is built (passing `weights_init`/`means_init` exactly when
the components were seeded, always with `random_state = 5`) and fitted;
otherwise the existing warm-started estimator is refitted.  Returns the fitted
estimator together with the updated object; the source returns
`(clf.means_, clf.covariances_)`, which are the projections of the first
component of this pair. -/
def GMM.train_using_python (lib : SKLib) (st : GMM) (input_data : NDArray)
    (iters : ℕ) : SKModel × GMM :=
  let clf : SKModel :=
    match st.clf with
    | some c => lib.refit c input_data
    | none =>
        if st.components_seeded then
          lib.fitNew
            ⟨st.M, st.cvtype, iters, some st.components.weights,
             some st.components.means, 5⟩ input_data
        else
          lib.fitNew ⟨st.M, st.cvtype, iters, none, none, 5⟩ input_data
  (clf, { st with clf := some clf })

/-- Model of `GMM.train(input_data, min_em_iters, max_em_iters)`: on a feature-count
mismatch the source only prints a diagnostic (recorded here as a warning) and
continues; it then fits via `train_using_python`, copies `means_`,
`covariances_` and `weights_` into the component block, stores
`self.clf.bic(input_data)` in `eval_data.likelihood` and returns that value.
(`min_em_iters` is accepted but never read by the source.) -/
def GMM.train (lib : SKLib) (st : GMM) (input_data : NDArray)
    (min_em_iters max_em_iters : ℕ) : GMM × ℚ × List PyWarning :=
  let ws : List PyWarning :=
    if input_data.shape.getD 1 0 ≠ st.D then
      [.dimMismatch (input_data.shape.getD 1 0) st.D]
    else []
  let (clf, st1) := GMM.train_using_python lib st input_data max_em_iters
  let comps := { st1.components with
                   means := clf.means_, covars := clf.covariances_,
                   weights := clf.weights_ }
  let lik := clf.bic input_data
  ({ st1 with components := comps,
              eval_data := { st1.eval_data with likelihood := lik } },
   lik, ws)

/-- Model of `GMM.eval(obs_data)`: prints (here: records) the mismatch diagnostic when
the column count differs from `D`, then queries the fitted estimator.  When
`self.clf` is `None` the attribute accesses raise (`AttributeError`),
modelled as `none`.  Otherwise the per-sample log-probabilities and the
posterior matrix are stored in `eval_data` and returned. -/
def GMM.eval (st : GMM) (obs_data : NDArray) :
    Option (GMM × NDArray × NDArray × List PyWarning) :=
  let ws : List PyWarning :=
    if obs_data.shape.getD 1 0 ≠ st.D then
      [.dimMismatch (obs_data.shape.getD 1 0) st.D]
    else []
  match st.clf with
  | none => none
  | some c =>
      let logprob := c.score_samples obs_data
      let posteriors := c.predict_proba obs_data
      some ({ st with eval_data := { st.eval_data with
                loglikelihoods := logprob, memberships := posteriors } },
            logprob, posteriors, ws)

/-- Model of `GMM.score(obs_data)` — the log-probabilities only. -/
def GMM.score (st : GMM) (obs_data : NDArray) :
    Option (GMM × NDArray × List PyWarning) :=
  (GMM.eval st obs_data).map (fun r => (r.1, r.2.1, r.2.2.2))

/-- Model of `GMM.decode(obs_data)` — log-probabilities plus
`posteriors.argmax(axis=0)`. -/
def GMM.decode (st : GMM) (obs_data : NDArray) :
    Option (GMM × NDArray × NDArray × List PyWarning) :=
  (GMM.eval st obs_data).map
    (fun r => (r.1, r.2.1, r.2.2.1.argmax_axis0, r.2.2.2))

/-- Model of `GMM.predict(obs_data)` — `posteriors.argmax(axis=0)` alone. -/
def GMM.predict (st : GMM) (obs_data : NDArray) :
    Option (GMM × NDArray × List PyWarning) :=
  (GMM.eval st obs_data).map (fun r => (r.1, r.2.2.1.argmax_axis0, r.2.2.2))

/-- Lines 132–143 of `compute_distance_BIC`: scale the two weight vectors by
`M1/(M1+M2)` and `M2/(M1+M2)`, concatenate weights (flat) and means and
covariances (`axis=0`, which raises `ValueError` on incompatible shapes), and
construct the combined `GMM` from `gmm1`'s `D` and `cvtype`. -/
def build_combined (g : ℕ → ℚ) (k : ℕ) (g1 g2 : GMM) : Except PyError (GMM × ℕ) :=
  let nComps := g1.M + g2.M
  let ratio1 : ℚ := (g1.M : ℚ) / (nComps : ℚ)
  let ratio2 : ℚ := (g2.M : ℚ) / (nComps : ℚ)
  let w := np_append (NDArray.smul ratio1 g1.components.weights)
                     (NDArray.smul ratio2 g2.components.weights)
  match np_append_axis0 g1.components.means g2.components.means with
  | .error e => .error e
  | .ok m =>
    match np_append_axis0 g1.components.covars g2.components.covars with
    | .error e => .error e
    | .ok c => GMM.init g k nComps g1.D (some m) (some c) (some w) g1.cvtype

/-- Model of `compute_distance_BIC(gmm1, gmm2, data, em_iters)`: build the combined
mixture, train it on `data` (`max_em_iters = em_iters`), and return the score
`(gmm1.eval_data.likelihood + gmm2.eval_data.likelihood) -
temp_GMM.eval_data.likelihood`.  Every assignment in the source targets the
fresh `temp_GMM` or fresh arrays (`np.append`/`ascontiguousarray`/scalar
multiplication all allocate), so the final states of `gmm1` and `gmm2` equal
their initial states; the embedding returns those final states explicitly so
the frame property is a statement about the result. -/
def compute_distance_BIC (lib : SKLib) (g : ℕ → ℚ) (k : ℕ) (g1 g2 : GMM)
    (data : NDArray) (em_iters : ℕ) :
    Except PyError (GMM × GMM × GMM × ℚ × List PyWarning) :=
  match build_combined g k g1 g2 with
  | .error e => .error e
  | .ok (temp0, _) =>
      let (temp1, _lik, ws) := GMM.train lib temp0 data 1 em_iters
      let score := (g1.eval_data.likelihood + g2.eval_data.likelihood)
                     - temp1.eval_data.likelihood
      .ok (g1, g2, temp1, score, ws)


/-! Helper lemmas and concrete fixtures -/

/-- Compatibility condition under which `np.append(..., axis=0)` succeeds. -/
abbrev concatCompatible (a b : NDArray) : Prop :=
  a.shape ≠ [] ∧ a.shape.length = b.shape.length ∧ a.shape.tail = b.shape.tail

theorem np_resize_take (a : NDArray) (n : ℕ) (h : n ≤ a.data.length) :
    np_resize a n = ⟨[n], a.data.take n⟩ := by
  unfold np_resize
  by_cases h0 : a.data.length = 0
  · have hn : n = 0 := by omega
    subst hn
    simp [h0]
  · rw [if_neg h0]
    congr 1
    apply List.ext_getElem
    · simp
      omega
    · intro i h1 h2
      simp only [List.getElem_map, List.getElem_range]
      rw [Nat.mod_eq_of_lt (by simp at h1; omega)]
      rw [List.getElem_take]
      exact List.getD_eq_getElem a.data 0 (by simp at h1; omega)

/-- A concrete parameter block used to exercise `shrink_components`. -/
def shrinkCexComps : GMMComponents :=
  ⟨2, 2, ⟨[2], [1/2, 1/2]⟩, ⟨[2, 2], [1, 2, 3, 4]⟩,
   ⟨[2, 2, 2], [1, 0, 0, 1, 2, 0, 0, 2]⟩, ⟨[2], [0, 0]⟩⟩

/-- A constant ambient random stream. -/
def gQuarter : ℕ → ℚ := fun _ => (1 : ℚ) / 4

/-! Claim C9 -/

/-- C9: constructing a `GMM` with a covariance-mode string outside
`{diag, full}` raises `RuntimeError`; with `diag` or `full` the construction
succeeds and the mode is stored. -/
theorem GMM_init_cvtype_validation (g : ℕ → ℚ) (k M D : ℕ)
    (means covars weights : Option NDArray) (cvtype : String) :
    (cvtype ∉ cvtype_name_list →
      GMM.init g k M D means covars weights cvtype =
        .error (.RuntimeError
          "Specified cvtype is not allowed, try one of [diag, full]")) ∧
    (cvtype ∈ cvtype_name_list →
      ∃ st k1, GMM.init g k M D means covars weights cvtype = .ok (st, k1) ∧
        st.cvtype = cvtype) := by
  constructor
  · intro h
    unfold GMM.init
    rw [if_neg h]
  · intro h
    unfold GMM.init
    rw [if_pos h]
    exact ⟨_, _, rfl, rfl⟩

/-- Witness for C9 at the concrete modes `"spam"` (rejected) and `"diag"`
(accepted and stored). -/
theorem GMM_init_cvtype_validation_witness :
    (GMM.init (fun _ => 0) 0 1 1 none none none "spam" =
      .error (.RuntimeError
        "Specified cvtype is not allowed, try one of [diag, full]")) ∧
    (∃ st k1, GMM.init (fun _ => 0) 0 1 1 none none none "diag" = .ok (st, k1) ∧
      st.cvtype = "diag") :=
  ⟨(GMM_init_cvtype_validation (fun _ => 0) 0 1 1 none none none "spam").1
      (by decide),
   (GMM_init_cvtype_validation (fun _ => 0) 0 1 1 none none none "diag").2
      (by decide)⟩

/-! Claim C6 -/

/-- C6 counterexample: `shrink_components` does not preserve per-component
shapes — shrinking a 2-component block with `D = 2` to one component leaves
the means as a flat length-2 array (not `1×2`) and the covariances as a flat
length-4 array (not `1×2×2`). -/
theorem shrink_components_flattens_cex :
    (shrinkCexComps.shrink_components 1).means.shape = [2] ∧
    (shrinkCexComps.shrink_components 1).means.shape ≠ [1, 2] ∧
    (shrinkCexComps.shrink_components 1).covars.shape = [4] ∧
    (shrinkCexComps.shrink_components 1).covars.shape ≠ [1, 2, 2] := by
  refine ⟨?_, by decide, ?_, by decide⟩ <;>
    simp [shrinkCexComps, GMMComponents.shrink_components, np_resize]

/-- C6 (amended): for `new_M` within bounds, `shrink_components` truncates the
weights to the first `new_M` entries (without re-normalizing) and truncates the
means and covariances to the data of the first `new_M` components, but returns
them as flat 1-D arrays of lengths `new_M*D` and `new_M*D*D`. -/
theorem shrink_components_truncates (c : GMMComponents) (new_M : ℕ)
    (hw : new_M ≤ c.weights.data.length)
    (hm : new_M * c.D ≤ c.means.data.length)
    (hc : new_M * c.D * c.D ≤ c.covars.data.length) :
    (c.shrink_components new_M).weights = ⟨[new_M], c.weights.data.take new_M⟩ ∧
    (c.shrink_components new_M).means =
      ⟨[new_M * c.D], c.means.data.take (new_M * c.D)⟩ ∧
    (c.shrink_components new_M).covars =
      ⟨[new_M * c.D * c.D], c.covars.data.take (new_M * c.D * c.D)⟩ := by
  unfold GMMComponents.shrink_components
  exact ⟨np_resize_take _ _ hw, np_resize_take _ _ hm, np_resize_take _ _ hc⟩

/-- Witness for the amended C6 at the concrete block `shrinkCexComps` shrunk
to one component. -/
theorem shrink_components_truncates_witness :
    (shrinkCexComps.shrink_components 1).weights =
      ⟨[1], shrinkCexComps.weights.data.take 1⟩ ∧
    (shrinkCexComps.shrink_components 1).means =
      ⟨[1 * shrinkCexComps.D], shrinkCexComps.means.data.take (1 * shrinkCexComps.D)⟩ ∧
    (shrinkCexComps.shrink_components 1).covars =
      ⟨[1 * shrinkCexComps.D * shrinkCexComps.D],
       shrinkCexComps.covars.data.take (1 * shrinkCexComps.D * shrinkCexComps.D)⟩ :=
  shrink_components_truncates shrinkCexComps 1 (by decide) (by decide) (by decide)

/-! Claim C7 -/

/-- C7 counterexample: with the ambient random stream constantly `1/4`,
initializing two components in one dimension yields a weight vector summing to
`1/2` (not normalized to 1) and covariances `[1/4, 1/4]` of shape `2×1`
(uniform draws, not a vector of ones per component). -/
theorem random_init_unnormalized_cex :
    ((GMMComponents.mkInit gQuarter 0 2 1 none none none).1.weights.data.sum ≠ 1) ∧
    ((GMMComponents.mkInit gQuarter 0 2 1 none none none).1.covars.data ≠ [1, 1]) ∧
    ((GMMComponents.mkInit gQuarter 0 2 1 none none none).1.covars.shape = [2, 1]) := by
  refine ⟨?_, ?_, ?_⟩ <;>
    · simp [GMMComponents.mkInit, npRandom, gQuarter, List.range_succ]
      try norm_num

/-- C7 (amended): random initialization stores the raw uniform draws — the
weights are not normalized, the means and the covariances are further draws
from the same ambient stream (covariances of shape `(M, D)` at construction
and `(M, D, D)` via `init_random_covars`, not identity-seeded), and the only
determinism is relative to the ambient global stream — no operation takes a
seed. -/
theorem random_init_raw_draws (g : ℕ → ℚ) (k M D : ℕ) :
    ((GMMComponents.mkInit g k M D none none none).1.weights =
      ⟨[M], (List.range M).map (fun i => g (k + i))⟩) ∧
    ((GMMComponents.mkInit g k M D none none none).1.means =
      ⟨[M, D], (List.range (M * D)).map (fun i => g (k + M + i))⟩) ∧
    ((GMMComponents.mkInit g k M D none none none).1.covars =
      ⟨[M, D], (List.range (M * D)).map (fun i => g (k + M + M * D + i))⟩) ∧
    (∀ c : GMMComponents,
      (GMMComponents.init_random_covars g k c).1.covars.shape = [c.M, c.D, c.D]) := by
  refine ⟨?_, ?_, ?_, fun c => ?_⟩ <;>
    simp [GMMComponents.mkInit, GMMComponents.init_random_covars, npRandom,
          Nat.mul_one, Nat.add_assoc]

/-! Claim C5 -/

/-- Modelled from the spec: the per-observation argmax — for each of the `N`
rows of an `N×M` posterior matrix, the index of that row's most probable
component.  This is what `decode`/`predict` are specified to return; the
EM/posterior numerics themselves live in scikit-learn, outside `src/`. -/
def perObservationArgmax (a : NDArray) : List ℕ :=
  match a.shape with
  | [n, m] =>
      (List.range n).map
        (fun i => argmaxIdx ((List.range m).map (fun j => a.data.getD (i * m + j) 0)))
  | _ => []

/-- A fitted estimator whose posterior matrix on the fixed batch `obsC5` is
the `3×2` row-stochastic matrix with rows `[1,0]`, `[1,0]`, `[0,1]`. -/
def clfC5 : SKModel :=
  ⟨⟨[2, 2], [0, 0, 0, 0]⟩, ⟨[2, 2], [1, 1, 1, 1]⟩, ⟨[2], [1, 1]⟩,
   fun _ => 0, fun _ => ⟨[3], [0, 0, 0]⟩,
   fun _ => ⟨[3, 2], [1, 0, 1, 0, 0, 1]⟩⟩

/-- A `GMM` with two components in two dimensions carrying `clfC5`. -/
def gmmC5 : GMM :=
  ⟨2, 2, "diag",
   ⟨2, 2, ⟨[2], [1, 1]⟩, ⟨[2, 2], [0, 0, 0, 0]⟩, ⟨[2, 2], [1, 1, 1, 1]⟩, ⟨[2], [0, 0]⟩⟩,
   GMMEvalData.mkInit 1 2, some clfC5, true⟩

/-- A concrete `3×2` observation batch. -/
def obsC5 : NDArray := ⟨[3, 2], [0, 0, 1, 1, 2, 2]⟩

/-- C5: `predict` (and hence `decode`) applies `argmax(axis=0)` to the `N×M`
posterior matrix, which returns, for each of the `M` components, the index of
the observation maximizing it — a length-`M` vector of observation indices —
instead of the specified length-`N` vector of per-observation component
indices.  On the batch `obsC5` (posteriors `[1,0],[1,0],[0,1]`) the code
returns `[0, 2]` while the specified answer is `[0, 0, 1]`; the code even
disagrees with the comment on its own `return` line (`# N indexes of most
likely components`). -/
theorem predict_argmax_axis0_divergence :
    ((GMM.predict gmmC5 obsC5).map (fun r => r.2.1)) = some ⟨[2], [0, 2]⟩ ∧
    perObservationArgmax (clfC5.predict_proba obsC5) = [0, 0, 1] ∧
    ((GMM.predict gmmC5 obsC5).map (fun r => r.2.1.data.length)) = some 2 ∧
    (clfC5.predict_proba obsC5).shape.headD 0 = 3 := by
  decide

/-! Claim C2 -/

/-- Modelled from the spec: the total log-likelihood of a batch under a
fitted model is the sum of the per-observation log-likelihoods
(`score_samples`); the density computation itself lives in scikit-learn,
outside `src/`. -/
def totalLogLikelihood (c : SKModel) (d : NDArray) : ℚ :=
  (c.score_samples d).data.sum

/-- A fitted estimator whose BIC on any batch is `7` while its
per-observation log-likelihoods on any batch are `[1, 1]` (total `2`). -/
def clfC2 : SKModel :=
  ⟨⟨[1, 1], [0]⟩, ⟨[1, 1], [1]⟩, ⟨[1], [1]⟩, fun _ => 7,
   fun _ => ⟨[2], [1, 1]⟩, fun _ => ⟨[2, 1], [1, 1]⟩⟩

/-- A library that always fits to `clfC2`. -/
def libC2 : SKLib := ⟨fun _ _ => clfC2, fun _ _ => clfC2⟩

/-- A one-component, one-dimensional seeded `GMM`, not yet fitted. -/
def gmmC2 : GMM :=
  ⟨1, 1, "diag", ⟨1, 1, ⟨[1], [1]⟩, ⟨[1, 1], [0]⟩, ⟨[1, 1], [1]⟩, ⟨[1], [0]⟩⟩,
   GMMEvalData.mkInit 1 1, none, true⟩

/-- The same `GMM` carrying the fitted estimator `clfC2`. -/
def gmmC3 : GMM := { gmmC2 with clf := some clfC2 }

/-- A concrete `2×1` batch matching `gmmC2.D`. -/
def dataC2 : NDArray := ⟨[2, 1], [0, 1]⟩

/-- C2 counterexample: on the batch `dataC2`, training under the library
`libC2` terminates normally and returns `7` — the fitted estimator's BIC —
while the final total log-likelihood of the batch under the fitted model is
`2`; the returned scalar is not the total log-likelihood. -/
theorem train_returns_bic_not_loglik_cex :
    (GMM.train libC2 gmmC2 dataC2 1 10).2.1 = 7 ∧
    (GMM.train libC2 gmmC2 dataC2 1 10).1.clf = some clfC2 ∧
    totalLogLikelihood clfC2 dataC2 = 2 ∧
    (GMM.train libC2 gmmC2 dataC2 1 10).2.1 ≠ totalLogLikelihood clfC2 dataC2 := by
  refine ⟨rfl, rfl, ?_, ?_⟩ <;>
    · simp [GMM.train, GMM.train_using_python, libC2, gmmC2, clfC2, dataC2,
            totalLogLikelihood]
      try norm_num

/-- C2 (amended): whatever the fitting library does, `train` stores the
fitted estimator, and the scalar it returns — also recorded in
`eval_data.likelihood` as the mixture's score — is `clf.bic(input_data)`,
the BIC value of the batch under the fitted model (the line storing the
log-likelihood is commented out in the source). -/
theorem train_stores_bic (lib : SKLib) (st : GMM) (data : NDArray) (mi ma : ℕ) :
    ∃ c : SKModel, (GMM.train lib st data mi ma).1.clf = some c ∧
      (GMM.train lib st data mi ma).2.1 = c.bic data ∧
      (GMM.train lib st data mi ma).1.eval_data.likelihood = c.bic data :=
  ⟨_, rfl, rfl, rfl⟩

/-! Claim C3 -/

/-- A `2×3` batch whose column count `3` mismatches the models of
dimensionality `1`. -/
def dataBad : NDArray := ⟨[2, 3], [0, 0, 0, 1, 1, 1]⟩

/-- C3 counterexample: on the mismatched batch `dataBad` (3 columns against
`D = 1`), `train` does not raise — it records the printed diagnostic, fits
anyway (the estimator is installed and the BIC is returned), and `eval` on a
fitted model likewise returns a result. -/
theorem train_eval_no_exception_on_dim_mismatch_cex :
    (GMM.train libC2 gmmC2 dataBad 1 10).1.clf = some clfC2 ∧
    (GMM.train libC2 gmmC2 dataBad 1 10).2.2 = [PyWarning.dimMismatch 3 1] ∧
    (GMM.train libC2 gmmC2 dataBad 1 10).2.1 = 7 ∧
    (GMM.eval gmmC3 dataBad).isSome = true := by
  refine ⟨rfl, ?_, rfl, rfl⟩
  simp [GMM.train, gmmC2, dataBad]

/-- C3 (amended): on a feature-count mismatch, `train` only emits the printed
diagnostic and proceeds to fit (returning normally with the estimator
installed), and `eval` (whenever an estimator is present) likewise emits the
diagnostic and performs the evaluation. -/
theorem train_eval_warn_and_proceed (lib : SKLib) (st : GMM) (d : NDArray)
    (mi ma : ℕ) (c : SKModel)
    (hD : d.shape.getD 1 0 ≠ st.D) (hclf : st.clf = some c) :
    ((GMM.train lib st d mi ma).2.2 =
      [PyWarning.dimMismatch (d.shape.getD 1 0) st.D]) ∧
    (∃ c2, (GMM.train lib st d mi ma).1.clf = some c2) ∧
    (∃ st2, GMM.eval st d =
      some (st2, c.score_samples d, c.predict_proba d,
            [PyWarning.dimMismatch (d.shape.getD 1 0) st.D])) := by
  refine ⟨?_, ⟨_, rfl⟩, ?_⟩
  · simp [GMM.train, hD]
    simpa using hD
  · simp only [GMM.eval, hclf]
    rw [if_pos hD]
    exact ⟨_, rfl⟩

/-- Witness for the amended C3 at the concrete fitted model `gmmC3` and the
mismatched batch `dataBad`. -/
theorem train_eval_warn_and_proceed_witness :
    ((GMM.train libC2 gmmC3 dataBad 1 10).2.2 =
      [PyWarning.dimMismatch (dataBad.shape.getD 1 0) gmmC3.D]) ∧
    (∃ c2, (GMM.train libC2 gmmC3 dataBad 1 10).1.clf = some c2) ∧
    (∃ st2, GMM.eval gmmC3 dataBad =
      some (st2, clfC2.score_samples dataBad, clfC2.predict_proba dataBad,
            [PyWarning.dimMismatch (dataBad.shape.getD 1 0) gmmC3.D])) :=
  train_eval_warn_and_proceed libC2 gmmC3 dataBad 1 10 clfC2 (by decide) rfl

/-! Fixtures and helper lemma for the merge claims -/

theorem list_sum_map_mul (r : ℚ) (l : List ℚ) :
    (l.map (fun x => r * x)).sum = r * l.sum := by
  induction l with
  | nil => simp
  | cons a t ih => simp [ih, mul_add]

/-- A fitted one-component mixture over `D = 1` with recorded score `10`. -/
def gmmA : GMM :=
  ⟨1, 1, "diag", ⟨1, 1, ⟨[1], [1]⟩, ⟨[1, 1], [0]⟩, ⟨[1, 1], [1]⟩, ⟨[1], [0]⟩⟩,
   ⟨1, 1, ⟨[1, 1], [0]⟩, ⟨[1], [0]⟩, 10⟩, none, true⟩

/-- A fitted one-component mixture over `D = 1` with recorded score `20`. -/
def gmmB : GMM :=
  ⟨1, 1, "diag", ⟨1, 1, ⟨[1], [1]⟩, ⟨[1, 1], [5]⟩, ⟨[1, 1], [2]⟩, ⟨[1], [0]⟩⟩,
   ⟨1, 1, ⟨[1, 1], [0]⟩, ⟨[1], [0]⟩, 20⟩, none, true⟩

/-- Model of `gmmB` with contradictory `D` and `cvtype` fields but array
shapes compatible with `gmmA`. -/
def gmmB7 : GMM := { gmmB with D := 7, cvtype := "full" }

/-- A one-component mixture of dimensionality `2` (its means are `1×2`). -/
def gmmB2 : GMM :=
  ⟨1, 2, "diag", ⟨1, 2, ⟨[1], [1]⟩, ⟨[1, 2], [5, 5]⟩, ⟨[1, 2], [2, 2]⟩, ⟨[1], [0]⟩⟩,
   ⟨1, 1, ⟨[1, 1], [0]⟩, ⟨[1], [0]⟩, 20⟩, none, true⟩

/-- A full-covariance one-component mixture over `D = 1`: its covariances are
the 3-D array `1×1×1` while a diagonal mixture carries a 2-D one. -/
def gmmBf : GMM :=
  ⟨1, 1, "full", ⟨1, 1, ⟨[1], [1]⟩, ⟨[1, 1], [5]⟩, ⟨[1, 1, 1], [2]⟩, ⟨[1], [0]⟩⟩,
   ⟨1, 1, ⟨[1, 1], [0]⟩, ⟨[1], [0]⟩, 20⟩, none, true⟩

/-! Claim C4 -/

/-- C4: when the two weight vectors each sum to 1 (and the concatenations are
shape-compatible), the combined parameter set built by the merge operation has
`Ma+Mb` components over `gmm1`'s dimensionality; its weight vector is A's
weights scaled by `Ma/(Ma+Mb)` followed by B's weights scaled by `Mb/(Ma+Mb)`
and sums to 1; its means and covariances are exactly the concatenation of A's
then B's, unscaled. -/
theorem build_combined_params_spec (g : ℕ → ℚ) (k : ℕ) (g1 g2 : GMM)
    (hcv : g1.cvtype ∈ cvtype_name_list)
    (hM : 0 < g1.M + g2.M)
    (hw1 : g1.components.weights.data.sum = 1)
    (hw2 : g2.components.weights.data.sum = 1)
    (hm : concatCompatible g1.components.means g2.components.means)
    (hc : concatCompatible g1.components.covars g2.components.covars) :
    ∃ t k1, build_combined g k g1 g2 = .ok (t, k1) ∧
      t.M = g1.M + g2.M ∧
      t.D = g1.D ∧
      t.components.weights.data =
        g1.components.weights.data.map
          (fun x => ((g1.M : ℚ) / ((g1.M + g2.M : ℕ) : ℚ)) * x) ++
        g2.components.weights.data.map
          (fun x => ((g2.M : ℚ) / ((g1.M + g2.M : ℕ) : ℚ)) * x) ∧
      t.components.weights.data.sum = 1 ∧
      t.components.means.data =
        g1.components.means.data ++ g2.components.means.data ∧
      t.components.means.shape =
        (g1.components.means.shape.headD 0 + g2.components.means.shape.headD 0)
          :: g1.components.means.shape.tail ∧
      t.components.covars.data =
        g1.components.covars.data ++ g2.components.covars.data ∧
      t.components.covars.shape =
        (g1.components.covars.shape.headD 0 + g2.components.covars.shape.headD 0)
          :: g1.components.covars.shape.tail := by
  unfold build_combined np_append_axis0 GMM.init
  simp only [if_pos hm, if_pos hc, if_pos hcv]
  refine ⟨_, _, rfl, rfl, rfl, rfl, ?_, rfl, rfl, rfl, rfl⟩
  show (np_append _ _).data.sum = 1
  unfold np_append NDArray.smul
  have hne : ((g1.M + g2.M : ℕ) : ℚ) ≠ 0 :=
    Nat.cast_ne_zero.mpr (by omega)
  simp only [List.sum_append, list_sum_map_mul, hw1, hw2, mul_one]
  rw [div_add_div_same, ← Nat.cast_add, div_self hne]

/-- Witness for C4 at the concrete fitted mixtures `gmmA` and `gmmB`. -/
theorem build_combined_params_spec_witness :
    ∃ t k1, build_combined (fun _ => 0) 0 gmmA gmmB = .ok (t, k1) ∧
      t.M = gmmA.M + gmmB.M ∧
      t.D = gmmA.D ∧
      t.components.weights.data =
        gmmA.components.weights.data.map
          (fun x => ((gmmA.M : ℚ) / ((gmmA.M + gmmB.M : ℕ) : ℚ)) * x) ++
        gmmB.components.weights.data.map
          (fun x => ((gmmB.M : ℚ) / ((gmmA.M + gmmB.M : ℕ) : ℚ)) * x) ∧
      t.components.weights.data.sum = 1 ∧
      t.components.means.data =
        gmmA.components.means.data ++ gmmB.components.means.data ∧
      t.components.means.shape =
        (gmmA.components.means.shape.headD 0 + gmmB.components.means.shape.headD 0)
          :: gmmA.components.means.shape.tail ∧
      t.components.covars.data =
        gmmA.components.covars.data ++ gmmB.components.covars.data ∧
      t.components.covars.shape =
        (gmmA.components.covars.shape.headD 0 + gmmB.components.covars.shape.headD 0)
          :: gmmA.components.covars.shape.tail :=
  build_combined_params_spec (fun _ => 0) 0 gmmA gmmB (by decide) (by decide)
    (by simp [gmmA]) (by simp [gmmB]) (by decide) (by decide)

/-! Claim C10 -/

/-- C10 counterexample: combining mixtures of differing dimensionality
(`gmmA` over `D = 1`, `gmmB2` over `D = 2`) fails with numpy's `ValueError`
when the means are concatenated, and combining a diagonal mixture with a
full-covariance one (`gmmBf`, whose covariance array is 3-D) fails likewise
at the covariance concatenation — an error IS raised at combination time. -/
theorem build_combined_shape_error_cex :
    gmmA.D ≠ gmmB2.D ∧
    (∃ e, build_combined (fun _ => 0) 0 gmmA gmmB2 = .error e) ∧
    gmmA.cvtype ≠ gmmBf.cvtype ∧
    (∃ e, build_combined (fun _ => 0) 0 gmmA gmmBf = .error e) :=
  ⟨by decide, ⟨_, rfl⟩, by decide, ⟨_, rfl⟩⟩

/-- C10 (amended): `compute_distance_BIC` never consults the second mixture's
`D` or `cvtype` fields — whenever the stored mode of `gmm1` is valid and the
arrays happen to be shape-compatible, the combination succeeds and uses
`gmm1`'s dimensionality and covariance mode, however different `gmm2`'s
fields are; incompatibilities surface only as numpy `ValueError`s raised by
the concatenations themselves. -/
theorem build_combined_no_field_check (g : ℕ → ℚ) (k : ℕ) (g1 g2 : GMM)
    (hcv : g1.cvtype ∈ cvtype_name_list)
    (hm : concatCompatible g1.components.means g2.components.means)
    (hc : concatCompatible g1.components.covars g2.components.covars) :
    ∃ t k1, build_combined g k g1 g2 = .ok (t, k1) ∧
      t.D = g1.D ∧ t.cvtype = g1.cvtype := by
  unfold build_combined np_append_axis0 GMM.init
  simp only [if_pos hm, if_pos hc, if_pos hcv]
  exact ⟨_, _, rfl, rfl, rfl⟩

/-- Witness for the amended C10: `gmmB7` disagrees with `gmmA` in both its
`D` field and its `cvtype` field, yet the combination succeeds and carries
`gmmA`'s values. -/
theorem build_combined_no_field_check_witness :
    gmmA.D ≠ gmmB7.D ∧ gmmA.cvtype ≠ gmmB7.cvtype ∧
    (∃ t k1, build_combined (fun _ => 0) 0 gmmA gmmB7 = .ok (t, k1) ∧
      t.D = gmmA.D ∧ t.cvtype = gmmA.cvtype) :=
  ⟨by decide, by decide,
   build_combined_no_field_check (fun _ => 0) 0 gmmA gmmB7 (by decide)
     (by decide) (by decide)⟩

/-! Claim C8 -/

/-- C8: the merge operation leaves the two source mixtures untouched — every
assignment in `compute_distance_BIC` (and in the `train` it calls) targets the
fresh combined mixture or fresh arrays, so the final states of `gmm1` and
`gmm2` (weights, means, covariances, `M`, `D`, recorded scores — all their
fields) equal their initial states, and only the new mixture is trained. -/
theorem compute_distance_BIC_frame (lib : SKLib) (g : ℕ → ℚ) (k : ℕ)
    (g1 g2 : GMM) (data : NDArray) (it : ℕ)
    (hcv : g1.cvtype ∈ cvtype_name_list)
    (hm : concatCompatible g1.components.means g2.components.means)
    (hc : concatCompatible g1.components.covars g2.components.covars) :
    ∃ t s ws, compute_distance_BIC lib g k g1 g2 data it =
      .ok (g1, g2, t, s, ws) := by
  unfold compute_distance_BIC build_combined np_append_axis0 GMM.init
  simp only [if_pos hm, if_pos hc, if_pos hcv]
  exact ⟨_, _, _, rfl⟩

/-- Witness for C8 at the concrete mixtures `gmmA`, `gmmB` and the batch
`dataC2`. -/
theorem compute_distance_BIC_frame_witness :
    ∃ t s ws, compute_distance_BIC libC2 (fun _ => 0) 0 gmmA gmmB dataC2 10 =
      .ok (gmmA, gmmB, t, s, ws) :=
  compute_distance_BIC_frame libC2 (fun _ => 0) 0 gmmA gmmB dataC2 10
    (by decide) (by decide) (by decide)

/-! Claim C1 -/

/-- C1: whenever the combination succeeds, `compute_distance_BIC` returns the
retrained combined mixture `t` together with the score
`(gmm1.eval_data.likelihood + gmm2.eval_data.likelihood) -
t.eval_data.likelihood`, where each `eval_data.likelihood` is the score
recorded from training that mixture (for `t` it is exactly the fitted
estimator's BIC on the batch, by `train`); the score is positive exactly when
the combined mixture's recorded BIC is lower than the sum of the two source
mixtures' recorded BICs. -/
theorem compute_distance_BIC_score_spec (lib : SKLib) (g : ℕ → ℚ) (k : ℕ)
    (g1 g2 : GMM) (data : NDArray) (it : ℕ)
    (hcv : g1.cvtype ∈ cvtype_name_list)
    (hm : concatCompatible g1.components.means g2.components.means)
    (hc : concatCompatible g1.components.covars g2.components.covars) :
    ∃ t ws c, compute_distance_BIC lib g k g1 g2 data it =
        .ok (g1, g2, t,
          (g1.eval_data.likelihood + g2.eval_data.likelihood)
            - t.eval_data.likelihood, ws) ∧
      t.clf = some c ∧
      t.eval_data.likelihood = c.bic data ∧
      (0 < (g1.eval_data.likelihood + g2.eval_data.likelihood)
            - t.eval_data.likelihood ↔
        t.eval_data.likelihood <
          g1.eval_data.likelihood + g2.eval_data.likelihood) := by
  unfold compute_distance_BIC build_combined np_append_axis0 GMM.init
    GMM.train GMM.train_using_python
  simp only [if_pos hm, if_pos hc, if_pos hcv]
  exact ⟨_, _, _, rfl, rfl, rfl, sub_pos⟩

/-- Witness for C1 at the concrete mixtures `gmmA` (score 10), `gmmB`
(score 20) and the batch `dataC2`. -/
theorem compute_distance_BIC_score_spec_witness :
    ∃ t ws c, compute_distance_BIC libC2 (fun _ => 0) 0 gmmA gmmB dataC2 10 =
        .ok (gmmA, gmmB, t,
          (gmmA.eval_data.likelihood + gmmB.eval_data.likelihood)
            - t.eval_data.likelihood, ws) ∧
      t.clf = some c ∧
      t.eval_data.likelihood = c.bic dataC2 ∧
      (0 < (gmmA.eval_data.likelihood + gmmB.eval_data.likelihood)
            - t.eval_data.likelihood ↔
        t.eval_data.likelihood <
          gmmA.eval_data.likelihood + gmmB.eval_data.likelihood) :=
  compute_distance_BIC_score_spec libC2 (fun _ => 0) 0 gmmA gmmB dataC2 10
    (by decide) (by decide) (by decide)
